import Mathlib

/-!
Verification development for the conversation-state and context-budget
engine of `bot/openai_helper.py`.

The Python module is shallowly embedded: pure fragments become Lean
functions, the per-process conversation store becomes an explicit state
record, upstream model calls and plugin invocations become parameters
(oracles), and Python exceptions become `Except String` results.  The
external tokenizer (`tiktoken`) is modelled as a parameter
`enc : String → Nat`, and the image codec as a parameter
`dims : String → Nat × Nat` giving the pixel dimensions decoded from an
embeddable image URL.  Python's float arithmetic in the vision cost
function is modelled with exact rationals.
-/

namespace ChatBot

/-- Decidable equality for `Except`, used to evaluate embedded functions
on concrete inputs. -/
instance {α β : Type} [DecidableEq α] [DecidableEq β] : DecidableEq (Except α β)
  | .ok x, .ok y =>
      if h : x = y then .isTrue (congrArg Except.ok h)
      else .isFalse (fun hh => h (Except.ok.inj hh))
  | .error x, .error y =>
      if h : x = y then .isTrue (congrArg Except.error h)
      else .isFalse (fun hh => h (Except.error.inj hh))
  | .ok _, .error _ => .isFalse (fun hh => Except.noConfusion hh)
  | .error _, .ok _ => .isFalse (fun hh => Except.noConfusion hh)

/-- A content block inside a multimodal message, as stored in the
conversation history (`{'type': 'text', ...}` / `{'type': 'image_url', ...}`
dictionaries in the Python source; `other` stands for a part with an
unknown `type` tag, carrying its optional `text` field). -/
inductive ContentPart where
  | text (t : String)
  | imageUrl (url : String) (detail : String)
  | other (ptype : String) (textField : Option String)
deriving DecidableEq

/-- Message content: either a plain string or an ordered list of parts. -/
inductive Content where
  | str (s : String)
  | parts (ps : List ContentPart)
deriving DecidableEq

/-- One history message: a `role`, an optional function `name` (present on
function-result messages) and `content`. -/
structure Message where
  role : String
  name : Option String := none
  content : Content
deriving DecidableEq

/-- `GPT_3_MODELS` from the top of `openai_helper.py`. -/
def GPT_3_MODELS : List String :=
  ["gpt-3.5-turbo", "gpt-3.5-turbo-0301", "gpt-3.5-turbo-0613"]

/-- `GPT_3_16K_MODELS`. -/
def GPT_3_16K_MODELS : List String :=
  ["gpt-3.5-turbo-16k", "gpt-3.5-turbo-16k-0613", "gpt-3.5-turbo-1106", "gpt-3.5-turbo-0125"]

/-- `GPT_4_MODELS`. -/
def GPT_4_MODELS : List String :=
  ["gpt-4", "gpt-4-0314", "gpt-4-0613", "gpt-4-turbo-preview"]

/-- `GPT_4_32K_MODELS`. -/
def GPT_4_32K_MODELS : List String :=
  ["gpt-4-32k", "gpt-4-32k-0314", "gpt-4-32k-0613"]

/-- `GPT_4_VISION_MODELS`. -/
def GPT_4_VISION_MODELS : List String :=
  ["gpt-4o"]

/-- `GPT_4_128K_MODELS`. -/
def GPT_4_128K_MODELS : List String :=
  ["gpt-4-1106-preview", "gpt-4-0125-preview", "gpt-4-turbo-preview", "gpt-4-turbo",
   "gpt-4-turbo-2024-04-09"]

/-- `GPT_4O_MODELS`. -/
def GPT_4O_MODELS : List String :=
  ["gpt-4o", "gpt-4o-mini", "chatgpt-4o-latest"]

/-- `GPT_4_1_MODELS`. -/
def GPT_4_1_MODELS : List String :=
  ["gpt-4.1", "gpt-4.1-mini", "gpt-4.1-nano"]

/-- `O_MODELS`. -/
def O_MODELS : List String :=
  ["o1", "o1-mini", "o1-preview"]

/-- `GPT_ALL_MODELS`: the concatenation of all family tuples. -/
def GPT_ALL_MODELS : List String :=
  GPT_3_MODELS ++ GPT_3_16K_MODELS ++ GPT_4_MODELS ++ GPT_4_32K_MODELS ++
  GPT_4_VISION_MODELS ++ GPT_4_128K_MODELS ++ GPT_4O_MODELS ++ GPT_4_1_MODELS ++ O_MODELS

/-- `default_max_tokens(model)`.  The Python function has no `else`
branch: for a model in no family it falls off the end and implicitly
returns `None`, modelled here as `Option.none` (a silently returned null,
not a raised exception). -/
def default_max_tokens (model : String) : Option Nat :=
  let base := 1200
  if model ∈ GPT_3_MODELS then some base
  else if model ∈ GPT_4_MODELS then some (base * 2)
  else if model ∈ GPT_3_16K_MODELS then
    if model = "gpt-3.5-turbo-1106" then some 4096 else some (base * 4)
  else if model ∈ GPT_4_32K_MODELS then some (base * 8)
  else if model ∈ GPT_4_VISION_MODELS then some 4096
  else if model ∈ GPT_4_128K_MODELS then some 4096
  else if model ∈ GPT_4O_MODELS then some 4096
  else if model ∈ GPT_4_1_MODELS then some 30000
  else if model ∈ O_MODELS then some 4096
  else none

/-- `__max_model_tokens`: the context-window lookup.  It raises
`NotImplementedError` for a model in no family, modelled as `.error`. -/
def max_model_tokens (model : String) : Except String Nat :=
  let base := 4096
  if model ∈ GPT_3_MODELS then .ok base
  else if model ∈ GPT_3_16K_MODELS then .ok (base * 4)
  else if model ∈ GPT_4_MODELS then .ok (base * 2)
  else if model ∈ GPT_4_32K_MODELS then .ok (base * 8)
  else if model ∈ GPT_4_VISION_MODELS then .ok (base * 31)
  else if model ∈ GPT_4_128K_MODELS then .ok (base * 31)
  else if model ∈ GPT_4O_MODELS then .ok (base * 31)
  else if model ∈ GPT_4_1_MODELS then .ok (base * 64)
  else if model ∈ O_MODELS then
    if model = "o1" then .ok 100000
    else if model = "o1-preview" then .ok 32768
    else .ok 65536
  else .error ("Max tokens for model " ++ model ++ " is not implemented yet.")

/-- `__count_tokens_vision(image_bytes)` on an image with pixel size
`w0 × h0`.  After the swap `if w > h: w, h = h, w` the pair `(w, h)` is
(short edge, long edge).  Python's float arithmetic is modelled as exact
rational arithmetic, with the scale factor `f = max(w / 768, h / 2048)`
carried as an explicit fraction `fn / fd`:
`max(w / 768, h / 2048) = w / 768` exactly when `2048 * w ≥ 768 * h`,
`f > 1` exactly when `fn > fd`, and `int(x / (fn / fd)) = x * fd / fn`
under natural-number division (floor, since all quantities are
non-negative). -/
def count_tokens_vision (vision_model vision_detail : String) (w0 h0 : Nat) :
    Except String Nat :=
  if vision_model ∈ GPT_4_VISION_MODELS then
    let w : Nat := if w0 > h0 then h0 else w0
    let h : Nat := if w0 > h0 then w0 else h0
    let base_tokens : Nat := 85
    if vision_detail = "low" then .ok base_tokens
    else if vision_detail = "high" ∨ vision_detail = "auto" then
      let fn : Nat := if 2048 * w ≥ 768 * h then w else h
      let fd : Nat := if 2048 * w ≥ 768 * h then 768 else 2048
      let w1 : Nat := if fn > fd then w * fd / fn else w
      let h1 : Nat := if fn > fd then h * fd / fn else h
      let tw := (w1 + 511) / 512
      let th := (h1 + 511) / 512
      .ok (base_tokens + tw * th * 170)
    else .error ("unknown parameter detail=" ++ vision_detail ++ " for model " ++ vision_model)
  else .error ("count_tokens_vision() is not implemented for model " ++ vision_model)

/-- Normalized (short edge, long edge) of an image, written after the
spec's words: scale down uniformly by `f = max(shortEdge/768, longEdge/2048)`
when `f > 1`, with the same exact-fraction representation of `f` as in
`count_tokens_vision`. -/
def vision_scaled (w0 h0 : Nat) : Nat × Nat :=
  let shortE := min w0 h0
  let longE := max w0 h0
  let fn : Nat := if 2048 * shortE ≥ 768 * longE then shortE else longE
  let fd : Nat := if 2048 * shortE ≥ 768 * longE then 768 else 2048
  if fn > fd then (shortE * fd / fn, longE * fd / fn)
  else (shortE, longE)

/-- Tile count of the normalized image: ceiling division per axis against
512 × 512 tiles. -/
def vision_tile_count (w0 h0 : Nat) : Nat :=
  ((vision_scaled w0 h0).1 + 511) / 512 * (((vision_scaled w0 h0).2 + 511) / 512)

/-- The configuration fields of `self.config` that the embedded core
reads. -/
structure Config where
  model : String
  vision_model : String
  vision_detail : String
  assistant_prompt : String
  max_tokens : Nat
  max_history_size : Nat
  functions_max_consecutive_calls : Nat
deriving DecidableEq

/-- Token cost of one content part inside `__count_tokens`:
`image_url` parts cost `__count_tokens_vision(decode_image(url))` (the
image codec is the parameter `dims`, giving the decoded pixel size),
every other part costs the encoded length of its `text` field
(`message1['text']` raises `KeyError` when the field is missing). -/
def part_tokens (enc : String → Nat) (dims : String → Nat × Nat)
    (vision_model vision_detail : String) : ContentPart → Except String Nat
  | .imageUrl url _ =>
      count_tokens_vision vision_model vision_detail (dims url).1 (dims url).2
  | .text t => .ok (enc t)
  | .other _ (some t) => .ok (enc t)
  | .other _ none => .error "KeyError: text"

/-- Summed cost of a block list inside `__count_tokens`. -/
def parts_tokens (enc : String → Nat) (dims : String → Nat × Nat)
    (vision_model vision_detail : String) : List ContentPart → Except String Nat
  | [] => .ok 0
  | p :: ps =>
    match part_tokens enc dims vision_model vision_detail p,
          parts_tokens enc dims vision_model vision_detail ps with
    | .ok a, .ok b => .ok (a + b)
    | .error e, _ => .error e
    | .ok _, .error e => .error e

/-- Cost of the `content` value of one message inside `__count_tokens`. -/
def content_tokens (enc : String → Nat) (dims : String → Nat × Nat)
    (vision_model vision_detail : String) : Content → Except String Nat
  | .str s => .ok (enc s)
  | .parts ps => parts_tokens enc dims vision_model vision_detail ps

/-- Contribution of the optional `name` key of a message inside
`__count_tokens`: its encoded length plus `tokens_per_name = 1`. -/
def name_tokens (enc : String → Nat) : Option String → Nat
  | some n => enc n + 1
  | none => 0

/-- Cost of one message inside `__count_tokens`: `tokens_per_message = 3`
plus, iterating the message keys, the encoded role, the name contribution,
and the content cost. -/
def message_tokens (enc : String → Nat) (dims : String → Nat × Nat)
    (vision_model vision_detail : String) (msg : Message) : Except String Nat :=
  match content_tokens enc dims vision_model vision_detail msg.content with
  | .ok c => .ok (3 + enc msg.role + name_tokens enc msg.name + c)
  | .error e => .error e

/-- The accumulation loop of `__count_tokens` over the message list. -/
def messages_tokens (enc : String → Nat) (dims : String → Nat × Nat)
    (vision_model vision_detail : String) : List Message → Except String Nat
  | [] => .ok 0
  | msg :: rest =>
    match message_tokens enc dims vision_model vision_detail msg,
          messages_tokens enc dims vision_model vision_detail rest with
    | .ok a, .ok b => .ok (a + b)
    | .error e, _ => .error e
    | .ok _, .error e => .error e

/-- `__count_tokens(messages)`: fails for a model outside every family,
otherwise sums the per-message costs and adds the terminal overhead of 3
units for the anticipated reply priming. -/
def count_tokens (enc : String → Nat) (dims : String → Nat × Nat)
    (model vision_model vision_detail : String) (messages : List Message) :
    Except String Nat :=
  if model ∈ GPT_ALL_MODELS then
    match messages_tokens enc dims vision_model vision_detail messages with
    | .ok s => .ok (s + 3)
    | .error e => .error e
  else .error ("num_tokens_from_messages() is not implemented for model " ++ model)

/-- Per-message cost exactly as claim C6 words it: a fixed overhead of 3
units plus the content cost alone (no contribution from the role or the
function name). -/
def message_tokens_claimC6 (enc : String → Nat) (dims : String → Nat × Nat)
    (vision_model vision_detail : String) (msg : Message) : Except String Nat :=
  Except.map (fun c => 3 + c) (content_tokens enc dims vision_model vision_detail msg.content)

/-- The token estimate exactly as claim C6 words it: the sum over messages
of `message_tokens_claimC6` plus one terminal overhead of 3 units, failing
for an unsupported model. -/
def count_tokens_claimC6 (enc : String → Nat) (dims : String → Nat × Nat)
    (model vision_model vision_detail : String) (messages : List Message) :
    Except String Nat :=
  if model ∈ GPT_ALL_MODELS then
    match messages.mapM (message_tokens_claimC6 enc dims vision_model vision_detail) with
    | .ok l => .ok (l.sum + 3)
    | .error e => .error e
  else .error ("num_tokens_from_messages() is not implemented for model " ++ model)

/-- Per-message cost as the amended claim C6 words it: 3 units plus the
encoded role, plus the encoded function name and one extra unit when a
name is present, plus the content cost. -/
def message_tokens_amendedC6 (enc : String → Nat) (dims : String → Nat × Nat)
    (vision_model vision_detail : String) (msg : Message) : Except String Nat :=
  Except.map (fun c => 3 + enc msg.role + name_tokens enc msg.name + c)
    (content_tokens enc dims vision_model vision_detail msg.content)

/-- The token estimate as the amended claim C6 words it. -/
def count_tokens_amendedC6 (enc : String → Nat) (dims : String → Nat × Nat)
    (model vision_model vision_detail : String) (messages : List Message) :
    Except String Nat :=
  if model ∈ GPT_ALL_MODELS then
    match messages.mapM (message_tokens_amendedC6 enc dims vision_model vision_detail) with
    | .ok l => .ok (l.sum + 3)
    | .error e => .error e
  else .error ("num_tokens_from_messages() is not implemented for model " ++ model)

/-- The per-process conversation store: the dictionaries
`self.conversations` and `self.conversations_vision`, keyed by chat id
(`none` models an absent key). -/
structure BotState where
  conversations : Nat → Option (List Message)
  conversations_vision : Nat → Option Bool

/-- The priming message installed by `reset_chat_history`: role
`assistant` for the O family and `system` otherwise, content the given
override unless it equals the empty string, in which case the configured
`assistant_prompt` is substituted. -/
def priming_message (cfg : Config) (content : Content) : Message :=
  { role := if cfg.model ∈ O_MODELS then "assistant" else "system",
    content := if content = Content.str "" then Content.str cfg.assistant_prompt else content }

/-- `reset_chat_history(chat_id, content='')`: replaces the conversation
with the single priming message and clears the vision flag. -/
def reset_chat_history (cfg : Config) (s : BotState) (chat_id : Nat) (content : Content) :
    BotState :=
  { conversations := fun i =>
      if i = chat_id then some [priming_message cfg content] else s.conversations i,
    conversations_vision := fun i =>
      if i = chat_id then some false else s.conversations_vision i }

/-- `get_conversation_stats(chat_id)`: auto-creates the conversation via
`reset_chat_history` when absent, then returns the message count and the
token estimate of the stored history (with the state after the possible
auto-creation). -/
def get_conversation_stats (cfg : Config) (enc : String → Nat) (dims : String → Nat × Nat)
    (s : BotState) (chat_id : Nat) : BotState × Nat × Except String Nat :=
  let s1 := match s.conversations chat_id with
    | none => reset_chat_history cfg s chat_id (Content.str "")
    | some _ => s
  let hist := (s1.conversations chat_id).getD []
  (s1, hist.length, count_tokens enc dims cfg.model cfg.vision_model cfg.vision_detail hist)

/-- The over-budget test of `__common_get_chat_response`:
`token_count + max_tokens > __max_model_tokens()` OR
`len(history) > max_history_size`. -/
def over_budget (cfg : Config) (token_count max_model hist_len : Nat) : Bool :=
  decide (token_count + cfg.max_tokens > max_model) ||
  decide (hist_len > cfg.max_history_size)

/-- The Python slice `history[-m:]` for a natural `m`: for `m = 0` it is
`history[0:]`, the whole list; otherwise the last `min(m, len)` elements. -/
def tail_slice (m : Nat) (l : List Message) : List Message :=
  if m = 0 then l else l.drop (l.length - m)

/-- "The last `m` messages" as claim C1 words it (the empty list when
`m = 0`). -/
def last_messages (m : Nat) (l : List Message) : List Message :=
  l.drop (l.length - m)

/-- The context-budget step of `__common_get_chat_response`
(lines 347-362), run after the new user turn has been appended.
`token_count` is the estimate `__count_tokens` returned for `hist`,
`max_model` the value of `__max_model_tokens()`, and `summary` the outcome
of the out-of-band `__summarise` call (`some` on success, `none` when it
raised).  On success the history is reset to a priming message built from
the first old message's content, the summary is appended as an assistant
turn and the triggering query is re-appended as a user turn; on failure
the history is hard-truncated with the Python slice `[-max_history_size:]`. -/
def budget_step (cfg : Config) (token_count max_model : Nat) (query : String)
    (summary : Option String) (hist : List Message) : List Message :=
  if over_budget cfg token_count max_model hist.length then
    match summary with
    | some su =>
        [priming_message cfg ((hist.headD { role := "", content := .str "" }).content),
         { role := "assistant", content := .str su },
         { role := "user", content := .str query }]
    | none => tail_slice cfg.max_history_size hist
  else hist

/-- A block of the structured (Responses) wire shape. -/
inductive RespBlock where
  | input_text (t : String)
  | output_text (t : String)
  | input_image (url : String) (detail : String)
  | passthrough (p : ContentPart)
deriving DecidableEq

/-- A structured-shape input message: `{role, content: [Block]}`. -/
structure RespMessage where
  role : String
  content : List RespBlock
deriving DecidableEq

/-- The role test of `__to_responses_message`: text blocks are tagged
`input_text` for the inbound roles `user`, `system` and `developer`, and
`output_text` otherwise. -/
def inbound_role (role : String) : Bool :=
  role = "user" || role = "system" || role = "developer"

/-- `__to_responses_message(role, content)`: drops `function` messages,
tags string content as one text block, and converts block content
part-by-part (`text` to a tagged text block, `image_url` to `input_image`
with the payload carried through, anything else passed through). -/
def to_responses_message (role : String) (content : Content) : Option RespMessage :=
  if role = "function" then none
  else some
    { role := role,
      content :=
        match content with
        | .str s => [if inbound_role role then .input_text s else .output_text s]
        | .parts ps => ps.map (fun p =>
            match p with
            | .text t => if inbound_role role then .input_text t else .output_text t
            | .imageUrl url detail => .input_image url detail
            | .other pt tf => .passthrough (.other pt tf)) }

/-- The history-to-input rendering of the non-streaming Responses path of
`__common_get_chat_response` (lines 417-424): assistant messages are
skipped with `continue` before `__to_responses_message` is called. -/
def responses_input_nonstream (hist : List Message) : List RespMessage :=
  hist.filterMap (fun m =>
    if m.role = "assistant" then none else to_responses_message m.role m.content)

/-- The history-to-input rendering of the streaming Responses path of
`get_chat_response_stream` (lines 273-277): every message goes through
`__to_responses_message`. -/
def responses_input_stream (hist : List Message) : List RespMessage :=
  hist.filterMap (fun m => to_responses_message m.role m.content)

/-- A plugin invocation result: either marked as a direct result by
`is_direct_result` (carrying its payload) or ordinary text. -/
inductive PluginResult where
  | direct (payload : String)
  | text (s : String)
deriving DecidableEq

/-- A legacy chat-completion response, as far as the resolver inspects it:
either a plain answer (with its usage total) or a function-call request
carrying the function name and the raw argument string. -/
inductive ChatResponse where
  | answer (t : String) (usage : Nat)
  | function_call (fname : String) (args : String)
deriving DecidableEq

/-- How one resolver run ended. -/
inductive ResolveOutcome where
  | finalResponse (r : ChatResponse)
  | directResult (payload : String)
  | noMoreResponses
deriving DecidableEq

/-- A function-result history turn, as `__add_function_call_to_history`
builds it. -/
def function_message (fname content : String) : Message :=
  { role := "function", name := some fname, content := .str content }

/-- The JSON recorded in history when a plugin returned a direct result
(`json.dumps` of the literal in the source, whose adjacent string pieces
concatenate without a space). -/
def direct_done_json : String :=
  "\x7b\"result\": \"Done, the content has been sentto the user.\"\x7d"

/-- The result of one `__handle_function_call` run: the outcome, the
plugin names used, the history produced, and the list of `function_call`
parameter values used on the successive model resubmissions (one entry per
resubmission, `"auto"` or `"none"`). -/
structure ResolveResult where
  outcome : ResolveOutcome
  plugins_used : List String
  hist : List Message
  modes : List String
deriving DecidableEq

/-- `__handle_function_call(chat_id, response, ...)`, with the upstream
model abstracted as the `oracle` list of responses returned by the
successive resubmissions (the run stops with `noMoreResponses` when the
oracle is exhausted).  A response with no function call is returned as-is;
otherwise the plugin is invoked, recorded once in `plugins_used`, a direct
result stops the run immediately, and an ordinary result is appended to
history before resubmitting with
`function_call = 'auto' if times < functions_max_consecutive_calls else 'none'`. -/
def handle_function_call (cfg : Config) (call_function : String → String → PluginResult) :
    ChatResponse → List ChatResponse → Nat → List String → List Message → List String →
    ResolveResult
  | .answer t u, _, _, p, h, m => ⟨.finalResponse (.answer t u), p, h, m⟩
  | .function_call fname args, oracle, times, p, h, m =>
    match call_function fname args, oracle with
    | .direct payload, _ =>
        ⟨.directResult payload,
         if fname ∈ p then p else p ++ [fname],
         h ++ [function_message fname direct_done_json], m⟩
    | .text content, [] =>
        ⟨.noMoreResponses,
         if fname ∈ p then p else p ++ [fname],
         h ++ [function_message fname content],
         m ++ [if times < cfg.functions_max_consecutive_calls then "auto" else "none"]⟩
    | .text content, r :: rest =>
        handle_function_call cfg call_function r rest (times + 1)
          (if fname ∈ p then p else p ++ [fname])
          (h ++ [function_message fname content])
          (m ++ [if times < cfg.functions_max_consecutive_calls then "auto" else "none"])

/-- What `get_chat_response` hands back to its caller on the legacy path. -/
inductive ChatAnswer where
  | direct (payload : String) (usage : String)
  | rendered (answer : String) (usage : Nat)
deriving DecidableEq

/-- The legacy path of `get_chat_response` after `__common_get_chat_response`,
reduced to what claim C5 talks about: the resolver is run, a direct result
is returned verbatim with the usage string `'0'`, and otherwise the final
answer text and usage total are rendered (usage/plugin footers elided, as
no claim concerns them). -/
def get_chat_response_legacy (cfg : Config) (call_function : String → String → PluginResult)
    (resp : ChatResponse) (oracle : List ChatResponse) : ChatAnswer × ResolveResult :=
  let r := handle_function_call cfg call_function resp oracle 0 [] [] []
  match r.outcome with
  | .directResult payload => (.direct payload "0", r)
  | .finalResponse (.answer t u) => (.rendered t u, r)
  | .finalResponse (.function_call _ _) => (.rendered "" 0, r)
  | .noMoreResponses => (.rendered "" 0, r)

/-- One tool call requested by a structured (Responses) API answer. -/
structure ToolCall where
  name : String
  args : String
deriving DecidableEq

/-- The status of a structured (Responses) API answer, as far as the
submit-tool-outputs loop inspects it. -/
inductive RespStatus where
  | requires_action (tool_calls : List ToolCall)
  | completed
deriving DecidableEq

/-- The submit-tool-outputs loop of the Responses path of
`__common_get_chat_response` (lines 443-463): while the response requires
action and `calls < max_calls`, every requested tool is invoked, the
outputs are submitted (the next response drawn from `oracle`), and `calls`
is incremented.  Returns the final value of `calls` (the number of
submissions) and the accumulated plugin names. -/
def responses_tool_loop (max_calls : Nat) :
    RespStatus → List RespStatus → Nat → List String → Nat × List String
  | .completed, _, calls, plugins => (calls, plugins)
  | .requires_action tcs, oracle, calls, plugins =>
    if calls < max_calls then
      match oracle with
      | [] => (calls + 1, plugins ++ tcs.map (fun tc => tc.name))
      | r :: rest =>
          responses_tool_loop max_calls r rest (calls + 1)
            (plugins ++ tcs.map (fun tc => tc.name))
    else (calls, plugins)

/-- A configuration used to evaluate the embedding on concrete inputs. -/
def sample_config : Config :=
  { model := "gpt-4o", vision_model := "gpt-4o", vision_detail := "low",
    assistant_prompt := "You are a helpful assistant.",
    max_tokens := 1200, max_history_size := 15,
    functions_max_consecutive_calls := 10 }

/-- The store before any conversation exists. -/
def empty_state : BotState :=
  { conversations := fun _ => none, conversations_vision := fun _ => none }

/-- A sample priming turn. -/
def msgA : Message := { role := "system", content := .str "p" }

/-- A sample user turn. -/
def msgB : Message := { role := "user", content := .str "q" }

/-- Claim C2, counterexample: resetting with the explicit override `''`
(the empty priming text) installs the configured default prompt, not the
override, because `reset_chat_history` treats `''` as the absent-argument
sentinel.  The claim predicts content `''` for this override. -/
theorem C2_counterexample :
    (reset_chat_history sample_config empty_state 7 (Content.str "")).conversations 7
      = some [{ role := "system", content := Content.str "You are a helpful assistant." }]
    ∧ Content.str "You are a helpful assistant." ≠ Content.str "" := by
  decide

/-- Claim C2 (amended): for every conversation id and every override,
after reset the history is exactly one message whose role is `assistant`
for an O-family model and `system` otherwise, whose content equals the
override when the override is non-empty and the configured default when
the override is absent or empty, and the vision flag is cleared. -/
theorem C2_reset_amended (cfg : Config) (s : BotState) (chat_id : Nat) (content : Content) :
    (reset_chat_history cfg s chat_id content).conversations chat_id
      = some [{ role := if cfg.model ∈ O_MODELS then "assistant" else "system",
                name := none,
                content := if content = Content.str "" then Content.str cfg.assistant_prompt
                           else content }]
    ∧ (reset_chat_history cfg s chat_id content).conversations_vision chat_id = some false := by
  unfold reset_chat_history priming_message
  simp

/-- Claim C10: for a conversation id not yet in the store,
`get_conversation_stats` auto-creates it via reset (so it cannot fail with
a missing key), returns message count 1 and the token estimate of the
priming message alone, and afterwards the store holds that conversation
with the vision flag false. -/
theorem C10_conversation_stats (cfg : Config) (enc : String → Nat)
    (dims : String → Nat × Nat) (s : BotState) (chat_id : Nat)
    (habs : s.conversations chat_id = none) :
    (get_conversation_stats cfg enc dims s chat_id).1.conversations chat_id
        = some [priming_message cfg (Content.str "")]
    ∧ (get_conversation_stats cfg enc dims s chat_id).1.conversations_vision chat_id
        = some false
    ∧ (get_conversation_stats cfg enc dims s chat_id).2.1 = 1
    ∧ (get_conversation_stats cfg enc dims s chat_id).2.2
        = count_tokens enc dims cfg.model cfg.vision_model cfg.vision_detail
            [priming_message cfg (Content.str "")] := by
  unfold get_conversation_stats reset_chat_history
  simp [habs]

/-- Witness for C10 at a concrete state, configuration and tokenizer. -/
theorem C10_conversation_stats_witness :
    (get_conversation_stats sample_config String.length (fun _ => (1, 1)) empty_state 5).2.1 = 1
    ∧ (get_conversation_stats sample_config String.length (fun _ => (1, 1)) empty_state 5).2.2
        = count_tokens String.length (fun _ => (1, 1)) "gpt-4o" "gpt-4o" "low"
            [priming_message sample_config (Content.str "")] := by
  have h := C10_conversation_stats sample_config String.length (fun _ => (1, 1)) empty_state 5 rfl
  exact ⟨h.2.2.1, h.2.2.2⟩

/-- Claim C1, counterexample: with `max_history_size = 0` and an
over-budget history, the summarization-failure fallback keeps the whole
history (the Python slice `[-0:]` is `[0:]`), while the claim predicts the
last 0 messages, i.e. the empty history. -/
theorem C1_counterexample :
    budget_step { sample_config with max_history_size := 0 } 0 100 "q" none [msgA, msgB]
      = [msgA, msgB]
    ∧ last_messages 0 [msgA, msgB] = []
    ∧ ([msgA, msgB] : List Message) ≠ [] := by
  decide

/-- Claim C1 (amended): after the new user turn has been appended, the
conversation is over budget exactly when the token estimate plus the
configured max-token reservation exceeds the model's max total tokens or
the message count exceeds `max_history_size`; when not over budget the
history is untouched; on over budget with summarization success the
history becomes exactly the reset priming message (built from the first
old message's content), the summary as an assistant turn, and the
re-appended triggering user message; on summarization failure, provided
`max_history_size ≥ 1`, it becomes the last `max_history_size` messages
(for `max_history_size = 0` the Python slice `[-0:]` keeps the whole
history instead). -/
theorem C1_budget_step_amended (cfg : Config) (tc mm : Nat) (q su : String)
    (m1 : Message) (rest : List Message) :
    (over_budget cfg tc mm (m1 :: rest).length = true
        ↔ (tc + cfg.max_tokens > mm ∨ (m1 :: rest).length > cfg.max_history_size))
    ∧ (over_budget cfg tc mm (m1 :: rest).length = false →
        budget_step cfg tc mm q none (m1 :: rest) = m1 :: rest
        ∧ budget_step cfg tc mm q (some su) (m1 :: rest) = m1 :: rest)
    ∧ (over_budget cfg tc mm (m1 :: rest).length = true →
        budget_step cfg tc mm q (some su) (m1 :: rest)
          = [priming_message cfg m1.content,
             { role := "assistant", content := .str su },
             { role := "user", content := .str q }])
    ∧ (over_budget cfg tc mm (m1 :: rest).length = true → 1 ≤ cfg.max_history_size →
        budget_step cfg tc mm q none (m1 :: rest)
          = last_messages cfg.max_history_size (m1 :: rest)) := by
  refine ⟨?_, ?_, ?_, ?_⟩
  · simp [over_budget]
  · intro hb
    have hb1 : over_budget cfg tc mm (rest.length + 1) = false := by simpa using hb
    constructor <;> simp [budget_step, hb1]
  · intro hb
    have hb1 : over_budget cfg tc mm (rest.length + 1) = true := by simpa using hb
    simp [budget_step, hb1]
  · intro hb hm
    have hb1 : over_budget cfg tc mm (rest.length + 1) = true := by simpa using hb
    have hstep : budget_step cfg tc mm q none (m1 :: rest)
        = tail_slice cfg.max_history_size (m1 :: rest) := by
      simp [budget_step, hb1]
    rw [hstep]
    unfold tail_slice last_messages
    rw [if_neg (by omega)]

/-- Witness for C1 exercising the summarization-success and the
truncation branches at concrete inputs. -/
theorem C1_budget_step_amended_witness :
    budget_step sample_config 999999 100 "q" (some "s") [msgA, msgB]
      = [priming_message sample_config (Content.str "p"),
         { role := "assistant", content := Content.str "s" },
         { role := "user", content := Content.str "q" }]
    ∧ budget_step { sample_config with max_history_size := 1 } 999999 100 "q" none [msgA, msgB]
      = [msgB] := by
  have h1 := C1_budget_step_amended sample_config 999999 100 "q" "s" msgA [msgB]
  have h2 := C1_budget_step_amended { sample_config with max_history_size := 1 }
    999999 100 "q" "s" msgA [msgB]
  exact ⟨h1.2.2.1 (by decide), ((h2.2.2.2 (by decide) (by decide)).trans (by decide))⟩

/-- On a supported vision model, the high/auto cost equals the base cost
plus 170 units per tile of the normalized image. -/
lemma count_tokens_vision_formula (vm vd : String) (w h : Nat)
    (hvm : vm ∈ GPT_4_VISION_MODELS) (hd : vd = "high" ∨ vd = "auto") :
    count_tokens_vision vm vd w h = .ok (85 + 170 * vision_tile_count w h) := by
  have hlow : ¬ vd = "low" := by rcases hd with h1 | h1 <;> subst h1 <;> decide
  simp only [count_tokens_vision, vision_tile_count, vision_scaled]
  rw [if_pos hvm, if_neg hlow, if_pos hd]
  rcases Nat.lt_or_ge h w with hwh | hwh
  · simp only [gt_iff_lt, hwh, if_true, min_eq_right (le_of_lt hwh),
      max_eq_left (le_of_lt hwh), apply_ite Prod.fst, apply_ite Prod.snd]
    ring_nf
  · simp only [gt_iff_lt, Nat.not_lt.mpr hwh, if_false, min_eq_left hwh,
      max_eq_right hwh, apply_ite Prod.fst, apply_ite Prod.snd]
    ring_nf

/-- Claim C7: on a supported vision model, a `low`-detail image costs 85
regardless of dimensions; `high` and `auto` cost 85 plus 170 per 512×512
tile of the image scaled down by `f = max(shortEdge/768, longEdge/2048)`
when `f > 1` (ceiling division per axis), e.g. 765 for 1024×1024; any
other detail value fails with an unknown-detail error. -/
theorem C7_vision_cost (vm vd : String) (w h : Nat)
    (hvm : vm ∈ GPT_4_VISION_MODELS) :
    count_tokens_vision vm "low" w h = .ok 85
    ∧ ((vd = "high" ∨ vd = "auto") →
        count_tokens_vision vm vd w h = .ok (85 + 170 * vision_tile_count w h))
    ∧ (¬(vd = "low" ∨ vd = "high" ∨ vd = "auto") →
        count_tokens_vision vm vd w h
          = .error ("unknown parameter detail=" ++ vd ++ " for model " ++ vm))
    ∧ count_tokens_vision vm "high" 1024 1024 = .ok 765 := by
  have hvm4o : vm = "gpt-4o" := by simpa [GPT_4_VISION_MODELS] using hvm
  refine ⟨?_, ?_, ?_, ?_⟩
  · simp [count_tokens_vision, hvm]
  · intro hd
    exact count_tokens_vision_formula vm vd w h hvm hd
  · intro hne
    have h1 : ¬ vd = "low" := fun hx => hne (Or.inl hx)
    have h2 : ¬ (vd = "high" ∨ vd = "auto") := fun hx => hne (Or.inr hx)
    simp only [count_tokens_vision]
    rw [if_pos hvm, if_neg h1, if_neg h2]
  · subst hvm4o
    decide

/-- Witness for C7 at a concrete model, detail levels and image sizes. -/
theorem C7_vision_cost_witness :
    count_tokens_vision "gpt-4o" "low" 800 600 = .ok 85
    ∧ count_tokens_vision "gpt-4o" "auto" 800 600 = .ok (85 + 170 * vision_tile_count 800 600)
    ∧ count_tokens_vision "gpt-4o" "weird" 800 600
        = .error ("unknown parameter detail=" ++ "weird" ++ " for model " ++ "gpt-4o")
    ∧ count_tokens_vision "gpt-4o" "high" 1024 1024 = .ok 765 := by
  have h1 := C7_vision_cost "gpt-4o" "auto" 800 600 (by decide)
  have h2 := C7_vision_cost "gpt-4o" "weird" 800 600 (by decide)
  exact ⟨h1.1, h1.2.1 (Or.inr rfl), h2.2.2.1 (by decide), h1.2.2.2⟩

/-- Claim C8, counterexample: a model identifier can resolve to two
distinct families, so resolution is not to "exactly one" family:
`gpt-4-turbo-preview` is in both the GPT-4 and the GPT-4-128K tables, and
`gpt-4o` is in both the vision and the 4o tables. -/
theorem C8_counterexample :
    "gpt-4-turbo-preview" ∈ GPT_4_MODELS ∧ "gpt-4-turbo-preview" ∈ GPT_4_128K_MODELS
    ∧ "gpt-4o" ∈ GPT_4_VISION_MODELS ∧ "gpt-4o" ∈ GPT_4O_MODELS
    ∧ GPT_4_MODELS ≠ GPT_4_128K_MODELS ∧ GPT_4_VISION_MODELS ≠ GPT_4O_MODELS := by
  decide

/-- Claim C8 (amended): every accepted identifier resolves to at least one
family (possibly several, resolution between overlapping families being
by fixed check order); for an identifier in no family the context-window
lookup and the token counting fail with an error at first use, while the
default max-token lookup silently returns no value (Python `None`) instead
of raising. -/
theorem C8_family_resolution_amended :
    (∀ m, m ∈ GPT_ALL_MODELS ↔
      (m ∈ GPT_3_MODELS ∨ m ∈ GPT_3_16K_MODELS ∨ m ∈ GPT_4_MODELS ∨ m ∈ GPT_4_32K_MODELS
       ∨ m ∈ GPT_4_VISION_MODELS ∨ m ∈ GPT_4_128K_MODELS ∨ m ∈ GPT_4O_MODELS
       ∨ m ∈ GPT_4_1_MODELS ∨ m ∈ O_MODELS))
    ∧ (∀ model, model ∉ GPT_ALL_MODELS →
        max_model_tokens model
          = .error ("Max tokens for model " ++ model ++ " is not implemented yet.")
        ∧ default_max_tokens model = none
        ∧ ∀ enc dims vm vd msgs,
            count_tokens enc dims model vm vd msgs
              = .error ("num_tokens_from_messages() is not implemented for model " ++ model)) := by
  constructor
  · intro m
    simp [GPT_ALL_MODELS, List.mem_append, or_assoc]
  · intro model hm
    have hall := hm
    simp only [GPT_ALL_MODELS, List.mem_append] at hm
    push_neg at hm
    obtain ⟨⟨⟨⟨⟨⟨⟨⟨h3, h316⟩, h4⟩, h432⟩, hv⟩, h128⟩, h4o⟩, h41⟩, ho⟩ := hm
    refine ⟨?_, ?_, ?_⟩
    · simp only [max_model_tokens]
      rw [if_neg h3, if_neg h316, if_neg h4, if_neg h432, if_neg hv, if_neg h128,
          if_neg h4o, if_neg h41, if_neg ho]
    · simp only [default_max_tokens]
      rw [if_neg h3, if_neg h4, if_neg h316, if_neg h432, if_neg hv, if_neg h128,
          if_neg h4o, if_neg h41, if_neg ho]
    · intro enc dims vm vd msgs
      simp only [count_tokens]
      rw [if_neg hall]

/-- Witness for C8 at the concrete unresolved identifier `gpt-5`. -/
theorem C8_family_resolution_amended_witness :
    max_model_tokens "gpt-5"
      = .error ("Max tokens for model " ++ "gpt-5" ++ " is not implemented yet.")
    ∧ default_max_tokens "gpt-5" = none
    ∧ count_tokens String.length (fun _ => (1, 1)) "gpt-5" "gpt-4o" "low" []
      = .error ("num_tokens_from_messages() is not implemented for model " ++ "gpt-5") := by
  have h := C8_family_resolution_amended.2 "gpt-5" (by decide)
  exact ⟨h.1, h.2.1, h.2.2 String.length (fun _ => (1, 1)) "gpt-4o" "low" []⟩

/-- The block list of a rendered structured-shape message, written after
the claim's words: text carried verbatim, tagged `input_text` when the
role is `user`/`system`/`developer` and `output_text` otherwise, image
blocks becoming `input_image` with their payload unchanged, unknown parts
passed through. -/
def claim_blocks (role : String) (content : Content) : List RespBlock :=
  match content with
  | .str s =>
      [if role = "user" ∨ role = "system" ∨ role = "developer"
       then .input_text s else .output_text s]
  | .parts ps => ps.map (fun p =>
      match p with
      | .text t =>
          if role = "user" ∨ role = "system" ∨ role = "developer"
          then .input_text t else .output_text t
      | .imageUrl url detail => .input_image url detail
      | .other pt tf => .passthrough (.other pt tf))

/-- The Bool role test of the source agrees with the claim's
propositional one. -/
lemma inbound_role_iff (role : String) :
    inbound_role role = true ↔ (role = "user" ∨ role = "system" ∨ role = "developer") := by
  simp [inbound_role, or_assoc]

/-- `__to_responses_message` drops exactly the `function` role and
otherwise produces the claim's block list. -/
lemma to_responses_message_eq (role : String) (content : Content) :
    to_responses_message role content
      = if role = "function" then none
        else some { role := role, content := claim_blocks role content } := by
  unfold to_responses_message claim_blocks
  by_cases hf : role = "function"
  · simp [hf]
  · rw [if_neg hf, if_neg hf]
    have hif : ∀ (a b : RespBlock),
        (if inbound_role role then a else b)
          = (if role = "user" ∨ role = "system" ∨ role = "developer" then a else b) :=
      fun a b => if_congr (inbound_role_iff role) rfl rfl
    cases content with
    | str s => simp [hif]
    | parts ps =>
      simp only [Option.some.injEq, RespMessage.mk.injEq, true_and]
      apply List.map_congr_left
      intro p _
      cases p <;> simp [hif]

/-- Claim C3, counterexample: the non-streaming structured render drops an
assistant message entirely, while the claim predicts it is included with
its text as an `output_text` block (as the converter alone would
produce). -/
theorem C3_counterexample :
    responses_input_nonstream [{ role := "assistant", content := Content.str "hi" }] = []
    ∧ to_responses_message "assistant" (Content.str "hi")
        = some { role := "assistant", content := [RespBlock.output_text "hi"] }
    ∧ ([] : List RespMessage)
        ≠ [{ role := "assistant", content := [RespBlock.output_text "hi"] }] := by
  decide

/-- Claim C3 (amended): in the streaming structured render exactly the
function-result messages are dropped and every other message becomes
`{role, content: [Block]}` with its text carried verbatim, tagged
`input_text` for user/system/developer and `output_text` otherwise and
image payloads carried through; the non-streaming render additionally
drops assistant messages. -/
theorem C3_responses_render_amended (hist : List Message) :
    responses_input_stream hist
      = hist.filterMap (fun m =>
          if m.role = "function" then none
          else some { role := m.role, content := claim_blocks m.role m.content })
    ∧ responses_input_nonstream hist
      = hist.filterMap (fun m =>
          if m.role = "assistant" ∨ m.role = "function" then none
          else some { role := m.role, content := claim_blocks m.role m.content }) := by
  constructor
  · unfold responses_input_stream
    have h1 : (fun (m : Message) => to_responses_message m.role m.content)
        = (fun m => if m.role = "function" then none
                    else some { role := m.role, content := claim_blocks m.role m.content }) :=
      funext (fun m => to_responses_message_eq m.role m.content)
    rw [h1]
  · unfold responses_input_nonstream
    have h2 : (fun (m : Message) =>
          if m.role = "assistant" then none else to_responses_message m.role m.content)
        = (fun m => if m.role = "assistant" ∨ m.role = "function" then none
                    else some { role := m.role, content := claim_blocks m.role m.content }) := by
      funext m
      by_cases ha : m.role = "assistant"
      · simp [ha]
      · rw [if_neg ha, to_responses_message_eq]
        by_cases hf : m.role = "function"
        · simp [hf]
        · rw [if_neg hf, if_neg (by tauto)]
    rw [h2]

/-- Claim C5: when the invoked plugin returns a result marked as a direct
result, the resolver records the done-marker in history and stops at once,
independently of the oracle (so no further model resubmission is issued
and no resubmission mode is recorded), and `get_chat_response` returns
that direct result with the usage string `'0'`. -/
theorem C5_direct_result (cfg : Config) (call_function : String → String → PluginResult)
    (fname args payload : String) (oracle : List ChatResponse)
    (times : Nat) (p : List String) (h : List Message) (m : List String)
    (hd : call_function fname args = .direct payload) :
    handle_function_call cfg call_function (.function_call fname args) oracle times p h m
      = ⟨.directResult payload,
         if fname ∈ p then p else p ++ [fname],
         h ++ [function_message fname direct_done_json], m⟩
    ∧ (get_chat_response_legacy cfg call_function (.function_call fname args) oracle).1
        = ChatAnswer.direct payload "0" := by
  have h1 : handle_function_call cfg call_function (.function_call fname args) oracle times p h m
      = ⟨.directResult payload,
         if fname ∈ p then p else p ++ [fname],
         h ++ [function_message fname direct_done_json], m⟩ := by
    cases oracle <;> simp [handle_function_call, hd]
  have h0 := h1
  refine ⟨h1, ?_⟩
  have h2 : handle_function_call cfg call_function (.function_call fname args) oracle 0 [] [] []
      = ⟨.directResult payload, [fname], [function_message fname direct_done_json], []⟩ := by
    cases oracle <;> simp [handle_function_call, hd]
  unfold get_chat_response_legacy
  rw [h2]

/-- A plugin collaborator whose every invocation is a direct result. -/
def cf_direct : String → String → PluginResult := fun _ _ => .direct "sent"

/-- Witness for C5 at a concrete plugin and request. -/
theorem C5_direct_result_witness :
    handle_function_call sample_config cf_direct (.function_call "f" "a")
        [.answer "x" 3] 0 [] [] []
      = ⟨.directResult "sent", ["f"], [function_message "f" direct_done_json], []⟩
    ∧ (get_chat_response_legacy sample_config cf_direct (.function_call "f" "a")
        [.answer "x" 3]).1 = ChatAnswer.direct "sent" "0" := by
  have h := C5_direct_result sample_config cf_direct "f" "a" "sent" [.answer "x" 3] 0 [] [] [] rfl
  exact ⟨h.1.trans (by decide), h.2⟩

/-- A plugin collaborator whose every invocation returns plain text. -/
def cf_text : String → String → PluginResult := fun _ _ => .text "result"

/-- A configuration with a tool-call ceiling of 1. -/
def cfg_limit1 : Config := { sample_config with functions_max_consecutive_calls := 1 }

/-- Claim C4, counterexample: with a ceiling of 1, the resubmission issued
right after the first invocation — the invocation at which the count
reaches the ceiling — still carries `function_call = 'auto'`, not the
`'none'` the claim predicts for that resubmission. -/
theorem C4_counterexample :
    (handle_function_call cfg_limit1 cf_text (.function_call "f" "a")
        [.answer "done" 10] 0 [] [] []).modes = ["auto"]
    ∧ "auto" ≠ "none" := by
  decide

/-- The resubmission modes produced by one resolver run form the range
`i ↦ 'auto' if times + i < ceiling else 'none'`. -/
lemma handle_function_call_modes (cfg : Config) (cf : String → String → PluginResult) :
    ∀ (oracle : List ChatResponse) (resp : ChatResponse) (times : Nat)
      (p : List String) (h : List Message) (m : List String),
      ∃ k, (handle_function_call cfg cf resp oracle times p h m).modes
        = m ++ (List.range k).map
            (fun i => if times + i < cfg.functions_max_consecutive_calls then "auto" else "none") := by
  intro oracle
  induction oracle with
  | nil =>
    intro resp times p h m
    cases resp with
    | answer t u => exact ⟨0, by simp [handle_function_call]⟩
    | function_call fname args =>
      cases hcf : cf fname args with
      | direct payload => exact ⟨0, by simp [handle_function_call, hcf]⟩
      | text content =>
        refine ⟨1, ?_⟩
        simp [handle_function_call, hcf, List.range_succ]
  | cons r rest ih =>
    intro resp times p h m
    cases resp with
    | answer t u => exact ⟨0, by simp [handle_function_call]⟩
    | function_call fname args =>
      cases hcf : cf fname args with
      | direct payload => exact ⟨0, by simp [handle_function_call, hcf]⟩
      | text content =>
        obtain ⟨k, hk⟩ := ih r (times + 1)
          (if fname ∈ p then p else p ++ [fname])
          (h ++ [function_message fname content])
          (m ++ [if times < cfg.functions_max_consecutive_calls then "auto" else "none"])
        refine ⟨k + 1, ?_⟩
        have hstep : handle_function_call cfg cf (.function_call fname args) (r :: rest)
            times p h m
            = handle_function_call cfg cf r rest (times + 1)
                (if fname ∈ p then p else p ++ [fname])
                (h ++ [function_message fname content])
                (m ++ [if times < cfg.functions_max_consecutive_calls then "auto" else "none"]) := by
          simp [handle_function_call, hcf]
        rw [hstep, hk, List.range_succ_eq_map, List.map_cons, List.map_map,
            List.append_assoc, List.singleton_append]
        congr 2
        apply List.map_congr_left
        intro i _
        simp only [Function.comp_apply]
        have harith : times + 1 + i = times + (i + 1) := by omega
        rw [harith]

/-- Claim C4 (amended): in the legacy shape the mode of the resubmission
issued after the k-th consecutive invocation (counting from 1) is `'auto'`
while k ≤ ceiling and `'none'` from k = ceiling + 1 on, i.e. the model is
forced to stop requesting tools one invocation after the count reaches the
ceiling; in the structured shape the submit-tool-outputs loop performs at
most `functions_max_consecutive_calls` submissions. -/
theorem C4_tool_ceiling_amended :
    (∀ (cfg : Config) (cf : String → String → PluginResult)
       (resp : ChatResponse) (oracle : List ChatResponse),
       ∃ k, (handle_function_call cfg cf resp oracle 0 [] [] []).modes
         = (List.range k).map
             (fun i => if i < cfg.functions_max_consecutive_calls then "auto" else "none"))
    ∧ (∀ (max_calls : Nat) (resp : RespStatus) (oracle : List RespStatus),
        (responses_tool_loop max_calls resp oracle 0 []).1 ≤ max_calls) := by
  constructor
  · intro cfg cf resp oracle
    obtain ⟨k, hk⟩ := handle_function_call_modes cfg cf oracle resp 0 [] [] []
    refine ⟨k, ?_⟩
    rw [hk, List.nil_append]
    apply List.map_congr_left
    intro i _
    rw [Nat.zero_add]
  · intro max_calls resp oracle
    have haux : ∀ (oracle : List RespStatus) (resp : RespStatus) (calls : Nat)
        (plugins : List String), calls ≤ max_calls →
        (responses_tool_loop max_calls resp oracle calls plugins).1 ≤ max_calls := by
      intro oracle
      induction oracle with
      | nil =>
        intro resp calls plugins hc
        cases resp with
        | completed => simpa [responses_tool_loop]
        | requires_action tcs =>
          by_cases hlt : calls < max_calls
          · simp only [responses_tool_loop, if_pos hlt]
            omega
          · simpa [responses_tool_loop, hlt]
      | cons r rest ih =>
        intro resp calls plugins hc
        cases resp with
        | completed => simpa [responses_tool_loop]
        | requires_action tcs =>
          by_cases hlt : calls < max_calls
          · simp only [responses_tool_loop, if_pos hlt]
            exact ih r (calls + 1) _ (by omega)
          · simpa [responses_tool_loop, hlt]
    exact haux oracle resp 0 [] (Nat.zero_le _)

/-- The source's per-message cost agrees with the amended claim-side
formula. -/
lemma message_tokens_eq_amended (enc : String → Nat) (dims : String → Nat × Nat)
    (vm vd : String) (msg : Message) :
    message_tokens enc dims vm vd msg = message_tokens_amendedC6 enc dims vm vd msg := by
  unfold message_tokens message_tokens_amendedC6
  cases h : content_tokens enc dims vm vd msg.content <;> simp [Except.map]

/-- The source's accumulation loop computes the sum of the per-message
costs in the claim's map-then-sum formulation. -/
lemma messages_tokens_eq_mapM (enc : String → Nat) (dims : String → Nat × Nat)
    (vm vd : String) :
    ∀ msgs, messages_tokens enc dims vm vd msgs
      = Except.map List.sum (msgs.mapM (message_tokens_amendedC6 enc dims vm vd)) := by
  intro msgs
  induction msgs with
  | nil => rfl
  | cons msg rest ih =>
    rw [List.mapM_cons]
    cases h1 : message_tokens_amendedC6 enc dims vm vd msg with
    | error e =>
      simp [messages_tokens, message_tokens_eq_amended, h1, Except.map, Bind.bind, Except.bind]
    | ok a =>
      cases h2 : rest.mapM (message_tokens_amendedC6 enc dims vm vd) with
      | error e =>
        have ih2 : messages_tokens enc dims vm vd rest = .error e := by
          rw [ih, h2]; rfl
        simp [messages_tokens, message_tokens_eq_amended, h1, ih2, Except.map,
          Bind.bind, Except.bind]
      | ok l =>
        have ih2 : messages_tokens enc dims vm vd rest = .ok l.sum := by
          rw [ih, h2]; rfl
        simp [messages_tokens, message_tokens_eq_amended, h1, ih2, Except.map,
          Bind.bind, Except.bind, pure, Except.pure]

/-- Claim C6, counterexample: the source estimate also encodes the `role`
key of each message (`for key, value in message.items()` covers every
key), so a single user message already costs more than the claim's
formula, which accounts only the per-message overhead and the content. -/
theorem C6_counterexample :
    count_tokens String.length (fun _ => (1, 1)) "gpt-4o" "gpt-4o" "low"
      [{ role := "user", content := Content.str "hi" }] = .ok 12
    ∧ count_tokens_claimC6 String.length (fun _ => (1, 1)) "gpt-4o" "gpt-4o" "low"
      [{ role := "user", content := Content.str "hi" }] = .ok 8
    ∧ (Except.ok 12 : Except String Nat) ≠ .ok 8 := by
  decide

/-- Claim C6 (amended): the token estimate equals the sum over messages of
3 units plus the encoded role, plus the encoded function name and one
extra unit when a name is present, plus the content cost (string content
by encoded length, block content by the summed block costs with image
blocks delegated to the vision cost function), plus one terminal overhead
of 3 units; for a model outside every family the estimate fails instead of
falling back. -/
theorem C6_count_tokens_amended (enc : String → Nat) (dims : String → Nat × Nat)
    (model vm vd : String) (msgs : List Message) :
    count_tokens enc dims model vm vd msgs
      = count_tokens_amendedC6 enc dims model vm vd msgs := by
  unfold count_tokens count_tokens_amendedC6
  by_cases h : model ∈ GPT_ALL_MODELS
  · rw [if_pos h, if_pos h, messages_tokens_eq_mapM]
    cases hm : msgs.mapM (message_tokens_amendedC6 enc dims vm vd) <;> simp [Except.map]
  · rw [if_neg h, if_neg h]

/-- Appending one message combines the loop results of the prefix and of
the message. -/
lemma messages_tokens_append_single (enc : String → Nat) (dims : String → Nat × Nat)
    (vm vd : String) :
    ∀ (msgs : List Message) (msg : Message),
      messages_tokens enc dims vm vd (msgs ++ [msg])
        = match messages_tokens enc dims vm vd msgs, message_tokens enc dims vm vd msg with
          | .ok a, .ok c => .ok (a + c)
          | .error e, _ => .error e
          | .ok _, .error e => .error e := by
  intro msgs
  induction msgs with
  | nil =>
    intro msg
    cases h : message_tokens enc dims vm vd msg <;>
      simp [messages_tokens, h]
  | cons m0 rest ih =>
    intro msg
    have hstep1 : messages_tokens enc dims vm vd ((m0 :: rest) ++ [msg])
        = match message_tokens enc dims vm vd m0,
                messages_tokens enc dims vm vd (rest ++ [msg]) with
          | .ok a, .ok b => .ok (a + b)
          | .error e, _ => .error e
          | .ok _, .error e => .error e := rfl
    have hstep2 : messages_tokens enc dims vm vd (m0 :: rest)
        = match message_tokens enc dims vm vd m0,
                messages_tokens enc dims vm vd rest with
          | .ok a, .ok b => .ok (a + b)
          | .error e, _ => .error e
          | .ok _, .error e => .error e := rfl
    rw [hstep1, hstep2, ih msg]
    cases h0 : message_tokens enc dims vm vd m0 <;>
      cases h1 : messages_tokens enc dims vm vd rest <;>
        cases h2 : message_tokens enc dims vm vd msg <;>
          simp [Nat.add_assoc]

/-- Claim C9: appending a message never decreases the token estimate —
whenever the accountant accepts both the original list and the extended
list, the new estimate is at least the old one. -/
theorem C9_count_tokens_monotone (enc : String → Nat) (dims : String → Nat × Nat)
    (model vm vd : String) (msgs : List Message) (msg : Message) (a b : Nat)
    (ha : count_tokens enc dims model vm vd msgs = .ok a)
    (hb : count_tokens enc dims model vm vd (msgs ++ [msg]) = .ok b) :
    a ≤ b := by
  unfold count_tokens at ha hb
  by_cases h : model ∈ GPT_ALL_MODELS
  · rw [if_pos h] at ha hb
    rw [messages_tokens_append_single] at hb
    cases h1 : messages_tokens enc dims vm vd msgs with
    | error e => rw [h1] at ha; cases ha
    | ok s =>
      rw [h1] at ha hb
      cases h2 : message_tokens enc dims vm vd msg with
      | error e => rw [h2] at hb; cases hb
      | ok c =>
        rw [h2] at hb
        simp only [Except.ok.injEq] at ha hb
        omega
  · rw [if_neg h] at ha
    cases ha

/-- Witness for C9 at a concrete tokenizer, model and message lists. -/
theorem C9_count_tokens_monotone_witness :
    count_tokens String.length (fun _ => (1, 1)) "gpt-4o" "gpt-4o" "low"
      [{ role := "user", content := Content.str "hi" }] = .ok 12
    ∧ count_tokens String.length (fun _ => (1, 1)) "gpt-4o" "gpt-4o" "low"
      ([{ role := "user", content := Content.str "hi" }]
        ++ [{ role := "user", content := Content.str "yo!" }]) = .ok 22
    ∧ (12 : Nat) ≤ 22 := by
  refine ⟨by decide, by decide, ?_⟩
  exact C9_count_tokens_monotone String.length (fun _ => (1, 1)) "gpt-4o" "gpt-4o" "low"
    [{ role := "user", content := Content.str "hi" }]
    { role := "user", content := Content.str "yo!" } 12 22 (by decide) (by decide)

end ChatBot
